import Mathlib

/-
Verification of the sports tournament data model (src/main.py).

The program is a small dynamically typed data-model library with three
classes: Player, Team and Match.  We embed it shallowly:

* Python values that can appear in these objects and in their
  dictionary (JSON-style) serializations are modelled by the inductive
  type `Value`: None, integers, strings, lists, and string-keyed
  dictionaries (modelled as association lists with the keys unique in
  every dictionary the program builds).
* Mutating methods become pure functions from the old object to the new
  object; methods that can raise become functions into
  `Except PyError _`.
* Python dynamic operations used by the code (`+`, `>`, `==`, f-string
  interpolation, dict indexing and `dict.get`) are modelled by `pyAdd`,
  `pyGt`, `Value.beq`, `pyStr`, `getField` and `getDefault`.
* `uuid.uuid4()` and `datetime.now().strftime(...)` produce fresh
  strings; constructors take those generated strings as explicit
  parameters.
-/

namespace Tournament

/-- Python values occurring in the data model: None, int, str, list, dict. -/
inductive Value where
  | vNone
  | vInt (n : Int)
  | vStr (s : String)
  | vList (l : List Value)
  | vDict (d : List (String × Value))

/-- Python structural equality (`==`) on `Value`. -/
def Value.beq : Value → Value → Bool
  | .vNone, .vNone => true
  | .vInt a, .vInt b => a == b
  | .vStr a, .vStr b => a == b
  | .vList [], .vList [] => true
  | .vList (a :: as), .vList (b :: bs) => Value.beq a b && Value.beq (.vList as) (.vList bs)
  | .vDict [], .vDict [] => true
  | .vDict ((k1, v1) :: as), .vDict ((k2, v2) :: bs) =>
      k1 == k2 && Value.beq v1 v2 && Value.beq (.vDict as) (.vDict bs)
  | _, _ => false

/-- `Value.beq` decides propositional equality, so Python `==` on this
value domain coincides with structural equality. -/
theorem Value.beq_eq_true_iff : ∀ a b : Value, Value.beq a b = true ↔ a = b := by
  intro a b
  induction a, b using Value.beq.induct <;> try simp_all [Value.beq]
  next a b h1 h2 h3 h4 h5 h6 h7 =>
    cases a <;> cases b <;> try simp_all [Value.beq]
    case vList.vList l1 l2 =>
      cases l1 <;> cases l2 <;> try simp_all [Value.beq]
      case cons.cons x xs y ys => exact absurd rfl (h5 x xs y ys rfl rfl rfl)
    case vDict.vDict d1 d2 =>
      cases d1 <;> cases d2 <;> try simp_all [Value.beq]
      case cons.cons p ps q qs =>
        cases p
        cases q
        exact absurd rfl (h7 _ _ ps _ _ qs rfl rfl rfl)

instance : DecidableEq Value := fun a b => decidable_of_iff _ (Value.beq_eq_true_iff a b)

/-- A Python dictionary with string keys, as an association list. -/
abbrev Dict := List (String × Value)

/-- Errors the program can raise.  `missingField k` is Python's
`KeyError(k)` from `data[k]` (the spec names it `MissingField`);
`duplicateJerseyNumber n` is the `ValueError` raised by
`Team.add_player` (the spec names it `DuplicateJerseyNumber`);
`typeError` is a `TypeError` from an unsupported dynamic operation. -/
inductive PyError where
  | missingField (k : String)
  | duplicateJerseyNumber (n : Value)
  | typeError
deriving DecidableEq

/-- Dictionary lookup (`k in d` semantics); keys are unique in every
dictionary the program builds, so first-match lookup is exact. -/
def dictGet? : Dict → String → Option Value
  | [], _ => none
  | (k, v) :: rest, key => if k = key then some v else dictGet? rest key

/-- Python `data[key]`: the value, or `KeyError(key)` when absent. -/
def getField (d : Dict) (key : String) : Except PyError Value :=
  match dictGet? d key with
  | some v => .ok v
  | none => .error (.missingField key)

/-- Python `data.get(key, dflt)`. -/
def getDefault (d : Dict) (key : String) (dflt : Value) : Value :=
  (dictGet? d key).getD dflt

/-- Python `+` on the values this program adds: int+int, str+str and
list+list succeed, every other combination raises `TypeError`. -/
def pyAdd : Value → Value → Except PyError Value
  | .vInt a, .vInt b => .ok (.vInt (a + b))
  | .vStr a, .vStr b => .ok (.vStr (a ++ b))
  | .vList a, .vList b => .ok (.vList (a ++ b))
  | _, _ => .error .typeError

/-- Python `>` on the score values this program compares: int>int and
lexicographic str>str succeed, mixed or None operands raise
`TypeError` (container comparisons never occur in the program). -/
def pyGt : Value → Value → Except PyError Bool
  | .vInt a, .vInt b => .ok (decide (b < a))
  | .vStr a, .vStr b => .ok (decide (b < a))
  | _, _ => .error .typeError

/-- Python `str(v)` as used by the f-strings in `get_result`: ints and
strings print themselves, None prints "None"; containers never reach an
f-string in this program and are rendered opaquely. -/
def pyStr : Value → String
  | .vNone => "None"
  | .vInt n => toString n
  | .vStr s => s
  | .vList _ => "[...]"
  | .vDict _ => "\x7b...\x7d"

/-- A Player object (src/main.py).  Fields hold arbitrary Python values,
as in the source, which validates nothing at construction. -/
structure Player where
  player_id : Value
  name : Value
  age : Value
  position : Value
  jersey_number : Value
  contact : Value
deriving DecidableEq

/-- The Player constructor: `uuid.uuid4()` yields the fresh identifier
string `fresh_id`, taken here as an explicit parameter. -/
def Player.init (fresh_id : String) (name age position jersey_number contact : Value) : Player :=
  { player_id := .vStr fresh_id, name := name, age := age, position := position,
    jersey_number := jersey_number, contact := contact }

/-- `Player.to_dict`. -/
def Player.to_dict (p : Player) : Dict :=
  [("player_id", p.player_id), ("name", p.name), ("age", p.age),
   ("position", p.position), ("jersey_number", p.jersey_number), ("contact", p.contact)]

/-- `Player.from_dict`: builds `Player(data[...], ...)` (whose freshly
generated identifier is immediately overwritten with
`data["player_id"]`), raising `KeyError` on the first missing required
key in the source's evaluation order. -/
def Player.from_dict (data : Dict) : Except PyError Player := do
  let name ← getField data "name"
  let age ← getField data "age"
  let position ← getField data "position"
  let jersey_number ← getField data "jersey_number"
  let contact ← getField data "contact"
  let player_id ← getField data "player_id"
  return { player_id := player_id, name := name, age := age, position := position,
           jersey_number := jersey_number, contact := contact }

/-- A Team object (src/main.py): identity fields, the owned player list
and the seven statistics fields. -/
structure Team where
  team_id : Value
  name : Value
  coach : Value
  contact : Value
  players : List Player
  registration_date : Value
  matches_played : Value
  wins : Value
  draws : Value
  losses : Value
  goals_for : Value
  goals_against : Value
  points : Value
deriving DecidableEq

/-- The Team constructor: fresh uuid string `fresh_id`, date stamp `now`
(the `datetime.now().strftime("%Y-%m-%d")` string), empty player list
and all statistics zero. -/
def Team.init (fresh_id now : String) (name coach contact : Value) : Team :=
  { team_id := .vStr fresh_id, name := name, coach := coach, contact := contact,
    players := [], registration_date := .vStr now,
    matches_played := .vInt 0, wins := .vInt 0, draws := .vInt 0, losses := .vInt 0,
    goals_for := .vInt 0, goals_against := .vInt 0, points := .vInt 0 }

/-- `Team.add_player`: raises `ValueError` (the spec's
`DuplicateJerseyNumber`) if any existing player has an `==`-equal jersey
number, otherwise appends.  The Python loop raises before mutating, so
the error case leaves the team unchanged. -/
def Team.add_player (t : Team) (player : Player) : Except PyError Team :=
  if t.players.any fun p => decide (p.jersey_number = player.jersey_number) then
    .error (.duplicateJerseyNumber player.jersey_number)
  else
    .ok { t with players := t.players ++ [player] }

/-- `Team.update_stats`: always adds 1 to matches_played and the goal
arguments to the goal totals, then branches on `result`: "win" adds 1
to wins and 3 to points, "draw" adds 1 to draws and 1 to points,
"loss" adds 1 to losses, anything else falls through the if/elif chain
touching nothing further. -/
def Team.update_stats (t : Team) (goals_for goals_against result : Value) :
    Except PyError Team := do
  let mp ← pyAdd t.matches_played (.vInt 1)
  let gf ← pyAdd t.goals_for goals_for
  let ga ← pyAdd t.goals_against goals_against
  if result = Value.vStr "win" then
    let w ← pyAdd t.wins (.vInt 1)
    let pts ← pyAdd t.points (.vInt 3)
    return { t with matches_played := mp, goals_for := gf, goals_against := ga,
                    wins := w, points := pts }
  else if result = Value.vStr "draw" then
    let d ← pyAdd t.draws (.vInt 1)
    let pts ← pyAdd t.points (.vInt 1)
    return { t with matches_played := mp, goals_for := gf, goals_against := ga,
                    draws := d, points := pts }
  else if result = Value.vStr "loss" then
    let l ← pyAdd t.losses (.vInt 1)
    return { t with matches_played := mp, goals_for := gf, goals_against := ga,
                    losses := l }
  else
    return { t with matches_played := mp, goals_for := gf, goals_against := ga }

/-- `Team.reset_stats`: zeroes the seven statistics fields. -/
def Team.reset_stats (t : Team) : Team :=
  { t with matches_played := .vInt 0, wins := .vInt 0, draws := .vInt 0, losses := .vInt 0,
           goals_for := .vInt 0, goals_against := .vInt 0, points := .vInt 0 }

/-- `Team.to_dict`: the players entry is the list of player dictionaries. -/
def Team.to_dict (t : Team) : Dict :=
  [("team_id", t.team_id), ("name", t.name), ("coach", t.coach), ("contact", t.contact),
   ("players", .vList (t.players.map fun p => .vDict p.to_dict)),
   ("registration_date", t.registration_date),
   ("matches_played", t.matches_played), ("wins", t.wins), ("draws", t.draws),
   ("losses", t.losses), ("goals_for", t.goals_for), ("goals_against", t.goals_against),
   ("points", t.points)]

/-- One step of the comprehension `[Player.from_dict(p) for p in ...]`:
indexing a non-dictionary element raises `TypeError`. -/
def parsePlayerItem : Value → Except PyError Player
  | .vDict d => Player.from_dict d
  | _ => .error .typeError

/-- The whole comprehension: iterating a non-list value raises
`TypeError` (Python would raise on iteration or on element indexing). -/
def parsePlayers : Value → Except PyError (List Player)
  | .vList l => l.mapM parsePlayerItem
  | _ => .error .typeError

/-- `Team.from_dict`: the constructor call consumes the three required
identity keys, then `team_id` is overwritten from the data; every other
key is read with `dict.get` and a default.  `now` is the fresh date
stamp the constructor would generate. -/
def Team.from_dict (data : Dict) (now : String) : Except PyError Team := do
  let name ← getField data "name"
  let coach ← getField data "coach"
  let contact ← getField data "contact"
  let team_id ← getField data "team_id"
  let players ← parsePlayers (getDefault data "players" (.vList []))
  return { team_id := team_id, name := name, coach := coach, contact := contact,
           players := players,
           registration_date := getDefault data "registration_date" (.vStr now),
           matches_played := getDefault data "matches_played" (.vInt 0),
           wins := getDefault data "wins" (.vInt 0),
           draws := getDefault data "draws" (.vInt 0),
           losses := getDefault data "losses" (.vInt 0),
           goals_for := getDefault data "goals_for" (.vInt 0),
           goals_against := getDefault data "goals_against" (.vInt 0),
           points := getDefault data "points" (.vInt 0) }

/-- A Match object (src/main.py): identifiers, optional schedule and
scores, status string and winner. -/
structure Match where
  match_id : Value
  tournament_id : Value
  team1_id : Value
  team2_id : Value
  match_date : Value
  venue : Value
  team1_score : Value
  team2_score : Value
  status : Value
  winner_id : Value
deriving DecidableEq

/-- The Match constructor: fresh uuid string, no schedule, no scores,
status "scheduled", no winner. -/
def Match.init (fresh_id : String) (tournament_id team1_id team2_id : Value) : Match :=
  { match_id := .vStr fresh_id, tournament_id := tournament_id, team1_id := team1_id,
    team2_id := team2_id, match_date := .vNone, venue := .vNone, team1_score := .vNone,
    team2_score := .vNone, status := .vStr "scheduled", winner_id := .vNone }

/-- `Match.set_schedule`: unconditionally overwrites date and venue. -/
def Match.set_schedule (m : Match) (match_date venue : Value) : Match :=
  { m with match_date := match_date, venue := venue }

/-- `Match.record_result`: stores the scores and sets status to
"completed" before comparing; the winner is team1 on `>`, team2 on the
reverse `>` (evaluated only if the first is false, as in the elif), and
the sentinel "draw" otherwise. -/
def Match.record_result (m : Match) (team1_score team2_score : Value) :
    Except PyError Match := do
  let m1 := { m with team1_score := team1_score, team2_score := team2_score,
                     status := Value.vStr "completed" }
  let gt1 ← pyGt team1_score team2_score
  if gt1 then
    return { m1 with winner_id := m1.team1_id }
  else
    let gt2 ← pyGt team2_score team1_score
    if gt2 then
      return { m1 with winner_id := m1.team2_id }
    else
      return { m1 with winner_id := Value.vStr "draw" }

/-- `Match.get_result`: a fixed message unless completed, a draw string
with both scores on the sentinel, otherwise a string naming the winner. -/
def Match.get_result (m : Match) : String :=
  if m.status ≠ Value.vStr "completed" then "Match not completed"
  else if m.winner_id = Value.vStr "draw" then
    "Draw " ++ pyStr m.team1_score ++ "-" ++ pyStr m.team2_score
  else
    "Winner: " ++ pyStr m.winner_id

/-- `Match.to_dict`. -/
def Match.to_dict (m : Match) : Dict :=
  [("match_id", m.match_id), ("tournament_id", m.tournament_id),
   ("team1_id", m.team1_id), ("team2_id", m.team2_id),
   ("match_date", m.match_date), ("venue", m.venue),
   ("team1_score", m.team1_score), ("team2_score", m.team2_score),
   ("status", m.status), ("winner_id", m.winner_id)]

/-- `Match.from_dict`: four required keys read with indexing, the rest
with `dict.get` defaults. -/
def Match.from_dict (data : Dict) : Except PyError Match := do
  let tournament_id ← getField data "tournament_id"
  let team1_id ← getField data "team1_id"
  let team2_id ← getField data "team2_id"
  let match_id ← getField data "match_id"
  return { match_id := match_id, tournament_id := tournament_id, team1_id := team1_id,
           team2_id := team2_id,
           match_date := getDefault data "match_date" .vNone,
           venue := getDefault data "venue" .vNone,
           team1_score := getDefault data "team1_score" .vNone,
           team2_score := getDefault data "team2_score" .vNone,
           status := getDefault data "status" (.vStr "scheduled"),
           winner_id := getDefault data "winner_id" .vNone }

/-- Teams reachable from a freshly constructed team (all statistics
zero) by any sequence of `update_stats` calls that return normally,
with arbitrary goal and result arguments. -/
inductive ReachableTeam : Team → Prop where
  | init (fresh_id now : String) (name coach contact : Value) :
      ReachableTeam (Team.init fresh_id now name coach contact)
  | update (t t' : Team) (gf ga r : Value) (ht : ReachableTeam t)
      (h : t.update_stats gf ga r = .ok t') : ReachableTeam t'

/-- The statistics invariant of the spec: wins, draws and points are
integers related by points = 3*wins + 1*draws. -/
def PointsInvariant (t : Team) : Prop :=
  ∃ w d p : Int, t.wins = .vInt w ∧ t.draws = .vInt d ∧ t.points = .vInt p ∧ p = 3 * w + d

/-- Matches reachable from Match construction (team identifiers are the
uuid strings of existing teams) by any sequence of `set_schedule`
calls, normally returning `record_result` calls, and
serialization round-trips through `to_dict`/`from_dict`. -/
inductive ReachableMatch : Match → Prop where
  | init (fresh_id : String) (tournament_id : Value) (t1 t2 : String) :
      ReachableMatch (Match.init fresh_id tournament_id (.vStr t1) (.vStr t2))
  | sched (m : Match) (d v : Value) (hm : ReachableMatch m) :
      ReachableMatch (m.set_schedule d v)
  | record (m m' : Match) (s1 s2 : Value) (hm : ReachableMatch m)
      (h : m.record_result s1 s2 = .ok m') : ReachableMatch m'
  | roundtrip (m m' : Match) (hm : ReachableMatch m)
      (h : Match.from_dict m.to_dict = .ok m') : ReachableMatch m'

/-- Both team identifier fields hold strings. -/
def MatchIdsStr (m : Match) : Prop :=
  (∃ a, m.team1_id = Value.vStr a) ∧ (∃ b, m.team2_id = Value.vStr b)

/-- The spec's match invariant: completed exactly when both scores and
the winner are set. -/
def StatusInvariant (m : Match) : Prop :=
  m.status = Value.vStr "completed" ↔
    (m.team1_score ≠ Value.vNone ∧ m.team2_score ≠ Value.vNone ∧
     m.winner_id ≠ Value.vNone)

/-- The keys `Player.from_dict` reads with indexing, in evaluation order. -/
def playerRequiredKeys : List String :=
  ["name", "age", "position", "jersey_number", "contact", "player_id"]

/-- The keys `Team.from_dict` reads with indexing, in evaluation order. -/
def teamRequiredKeys : List String := ["name", "coach", "contact", "team_id"]

/-- The keys `Match.from_dict` reads with indexing, in evaluation order. -/
def matchRequiredKeys : List String :=
  ["tournament_id", "team1_id", "team2_id", "match_id"]

theorem pyAdd_int (a b : Int) : pyAdd (.vInt a) (.vInt b) = .ok (.vInt (a + b)) := rfl

theorem pyGt_int (a b : Int) : pyGt (.vInt a) (.vInt b) = .ok (decide (b < a)) := rfl

/-- C1: `update_stats(gf, ga, result)` adds 1 to matches_played, gf to
goals_for and ga to goals_against; on "win" it adds 1 to wins and 3 to
points, on "draw" 1 to draws and 1 to points, on "loss" 1 to losses
with points unchanged, and on any other result value it changes no
win/draw/loss counter and no points; all fields not listed are
unchanged in every case. -/
theorem C1_update_stats (t : Team) (gf ga : Int) (r : Value) (mp w d l gfv gav p : Int)
    (hmp : t.matches_played = .vInt mp) (hw : t.wins = .vInt w) (hd : t.draws = .vInt d)
    (hl : t.losses = .vInt l) (hgf : t.goals_for = .vInt gfv)
    (hga : t.goals_against = .vInt gav) (hp : t.points = .vInt p) :
    t.update_stats (.vInt gf) (.vInt ga) r =
      .ok { t with
            matches_played := .vInt (mp + 1),
            goals_for := .vInt (gfv + gf),
            goals_against := .vInt (gav + ga),
            wins := if r = Value.vStr "win" then .vInt (w + 1) else t.wins,
            draws := if r = Value.vStr "draw" then .vInt (d + 1) else t.draws,
            losses := if r = Value.vStr "loss" then .vInt (l + 1) else t.losses,
            points := if r = Value.vStr "win" then .vInt (p + 3)
                      else if r = Value.vStr "draw" then .vInt (p + 1)
                      else t.points } := by
  by_cases h1 : r = Value.vStr "win" <;>
  by_cases h2 : r = Value.vStr "draw" <;>
  by_cases h3 : r = Value.vStr "loss" <;>
  simp_all [Team.update_stats, pyAdd, bind, Except.bind, pure, Except.pure]

/-- C1 witness: a loss recorded on a fresh team. -/
theorem C1_update_stats_witness :
    (Team.init "t1" "2025-01-01" (.vStr "A") (.vStr "B") (.vStr "C")).update_stats
        (.vInt 2) (.vInt 1) (.vStr "loss") =
      .ok { Team.init "t1" "2025-01-01" (.vStr "A") (.vStr "B") (.vStr "C") with
            matches_played := .vInt 1, goals_for := .vInt 2, goals_against := .vInt 1,
            losses := .vInt 1 } := by
  have h := C1_update_stats (Team.init "t1" "2025-01-01" (.vStr "A") (.vStr "B") (.vStr "C"))
    2 1 (.vStr "loss") 0 0 0 0 0 0 0 rfl rfl rfl rfl rfl rfl rfl
  simpa [Team.init] using h

/-- Any normally returning `update_stats` call preserves the points
invariant. -/
theorem update_stats_preserves_invariant (t t' : Team) (gf ga r : Value)
    (hinv : PointsInvariant t) (h : t.update_stats gf ga r = .ok t') :
    PointsInvariant t' := by
  obtain ⟨w, d, p, hw, hd, hp, hlin⟩ := hinv
  simp only [Team.update_stats, hw, hd, hp, pyAdd, bind, Except.bind, pure, Except.pure] at h
  split at h
  · exact absurd h (by simp)
  · split at h
    · exact absurd h (by simp)
    · split at h
      · exact absurd h (by simp)
      · split at h
        · cases h
          exact ⟨w + 1, d, p + 3, rfl, rfl, rfl, by omega⟩
        · split at h
          · cases h
            exact ⟨w, d + 1, p + 1, rfl, rfl, rfl, by omega⟩
          · split at h
            · split at h
              · exact absurd h (by simp)
              · cases h
                exact ⟨w, d, p, rfl, rfl, rfl, hlin⟩
            · cases h
              exact ⟨w, d, p, rfl, rfl, rfl, hlin⟩

/-- C2: every team reachable from a fresh team by update_stats calls
satisfies points = 3*wins + 1*draws, and update_stats preserves this
predicate on the statistics fields. -/
theorem C2_points_invariant :
    (∀ t : Team, ReachableTeam t → PointsInvariant t) ∧
    (∀ (t t' : Team) (gf ga r : Value), PointsInvariant t →
      t.update_stats gf ga r = .ok t' → PointsInvariant t') := by
  constructor
  · intro t ht
    induction ht with
    | init fresh_id now name coach contact => exact ⟨0, 0, 0, rfl, rfl, rfl, by omega⟩
    | update t t' gf ga r ht h ih => exact update_stats_preserves_invariant t t' gf ga r ih h
  · intro t t' gf ga r hinv h
    exact update_stats_preserves_invariant t t' gf ga r hinv h

/-- C2 witness: the invariant holds for the team obtained from a fresh
team by one winning update. -/
theorem C2_points_invariant_witness :
    PointsInvariant { Team.init "t1" "2025-01-01" (.vStr "A") (.vStr "B") (.vStr "C") with
                      matches_played := .vInt 1, goals_for := .vInt 2, goals_against := .vInt 0,
                      wins := .vInt 1, points := .vInt 3 } :=
  C2_points_invariant.1 _
    (ReachableTeam.update _ _ (.vInt 2) (.vInt 0) (.vStr "win")
      (ReachableTeam.init "t1" "2025-01-01" (.vStr "A") (.vStr "B") (.vStr "C"))
      (by simp [Team.update_stats, Team.init, pyAdd, bind, Except.bind, pure, Except.pure]))

/-- C3: for every match (whatever its prior status, scores and winner)
and integers s1, s2, `record_result(s1, s2)` stores both scores, sets
status to "completed", and sets winner_id to team1_id when s1 > s2, to
team2_id when s2 > s1, and to the sentinel "draw" on equality; every
other field is kept, so a repeated call fully overwrites the previous
scores, status and winner. -/
theorem C3_record_result (m : Match) (s1 s2 : Int) :
    m.record_result (.vInt s1) (.vInt s2) =
      .ok { m with team1_score := .vInt s1, team2_score := .vInt s2,
                   status := Value.vStr "completed",
                   winner_id := if s1 > s2 then m.team1_id
                                else if s2 > s1 then m.team2_id
                                else Value.vStr "draw" } := by
  by_cases h1 : s2 < s1
  · simp [Match.record_result, pyGt, bind, Except.bind, pure, Except.pure, h1,
      show ¬ s1 < s2 by omega, gt_iff_lt]
  · by_cases h2 : s1 < s2
    · simp [Match.record_result, pyGt, bind, Except.bind, pure, Except.pure, h1, h2, gt_iff_lt]
    · simp [Match.record_result, pyGt, bind, Except.bind, pure, Except.pure, h1, h2, gt_iff_lt]

/-- C4: starting from a team none of whose players uses the contested
jersey number, adding p1 succeeds (appending it), and then adding a p2
with an equal jersey_number raises the duplicate-jersey error; the
failing call leaves the team unchanged, so starting from an empty
player list the list afterwards contains only p1. -/
theorem C4_add_player_duplicate (t : Team) (p1 p2 : Player)
    (hjersey : p1.jersey_number = p2.jersey_number)
    (hfree : ∀ p ∈ t.players, p.jersey_number ≠ p1.jersey_number) :
    ∃ t1 : Team,
      t.add_player p1 = .ok t1 ∧
      t1.players = t.players ++ [p1] ∧
      t1.add_player p2 = .error (.duplicateJerseyNumber p2.jersey_number) ∧
      (t.players = [] → t1.players = [p1]) := by
  have hnot : ¬ ((t.players.any fun p => decide (p.jersey_number = p1.jersey_number)) = true) := by
    simp only [List.any_eq_true, decide_eq_true_eq, not_exists]
    intro p
    simp only [not_and]
    exact fun hp => hfree p hp
  have hdup : (((t.players ++ [p1]).any fun p =>
      decide (p.jersey_number = p2.jersey_number)) = true) := by
    simp [List.any_append, hjersey]
  refine ⟨{ t with players := t.players ++ [p1] }, ?_, rfl, ?_, ?_⟩
  · unfold Team.add_player
    rw [if_neg hnot]
  · unfold Team.add_player
    simp only
    rw [if_pos hdup]
  · intro h0
    simp [h0]

/-- C4 witness: two players with jersey number 7 on a fresh team. -/
theorem C4_add_player_duplicate_witness :
    ∃ t1 : Team,
      (Team.init "t1" "2025-01-01" (.vStr "A") (.vStr "B") (.vStr "C")).add_player
          (Player.init "p1" (.vStr "Ana") (.vInt 20) (.vStr "GK") (.vInt 7) (.vStr "x"))
        = .ok t1 ∧
      t1.players = (Team.init "t1" "2025-01-01" (.vStr "A") (.vStr "B") (.vStr "C")).players ++
        [Player.init "p1" (.vStr "Ana") (.vInt 20) (.vStr "GK") (.vInt 7) (.vStr "x")] ∧
      t1.add_player (Player.init "p2" (.vStr "Bo") (.vInt 21) (.vStr "DF") (.vInt 7) (.vStr "y"))
        = .error (.duplicateJerseyNumber
            (Player.init "p2" (.vStr "Bo") (.vInt 21) (.vStr "DF") (.vInt 7) (.vStr "y")).jersey_number) ∧
      ((Team.init "t1" "2025-01-01" (.vStr "A") (.vStr "B") (.vStr "C")).players = [] →
        t1.players = [Player.init "p1" (.vStr "Ana") (.vInt 20) (.vStr "GK") (.vInt 7) (.vStr "x")]) :=
  C4_add_player_duplicate _ _ _ rfl (by simp [Team.init])

/-- Serializing a player and deserializing the result reproduces it. -/
theorem player_from_dict_to_dict (p : Player) : Player.from_dict p.to_dict = .ok p := by
  simp [Player.from_dict, Player.to_dict, getField, dictGet?, bind, Except.bind, pure, Except.pure]

/-- Deserializing each serialized player of a list reproduces the list. -/
theorem mapM_parsePlayerItem_to_dict (ps : List Player) :
    (ps.map fun p => Value.vDict p.to_dict).mapM parsePlayerItem = .ok ps := by
  induction ps with
  | nil => rfl
  | cons p rest ih =>
      rw [List.map_cons, List.mapM_cons, ih]
      simp [parsePlayerItem, player_from_dict_to_dict, bind, Except.bind, pure, Except.pure]

/-- The player-list comprehension inverts the serialized player list. -/
theorem parsePlayers_map_to_dict (ps : List Player) :
    parsePlayers (.vList (ps.map fun p => .vDict p.to_dict)) = .ok ps := by
  show (ps.map fun p => Value.vDict p.to_dict).mapM parsePlayerItem = .ok ps
  exact mapM_parsePlayerItem_to_dict ps

/-- C6: for every team (any players, any statistics values) and any
fresh date stamp, `Team.from_dict(team.to_dict())` succeeds and
reproduces the team exactly: identical identity fields, an identical
player list and identical statistics. -/
theorem C6_team_roundtrip (t : Team) (now : String) :
    Team.from_dict t.to_dict now = .ok t := by
  simp [Team.from_dict, Team.to_dict, getField, getDefault, dictGet?, parsePlayers_map_to_dict,
    bind, Except.bind, pure, Except.pure]

/-- Serializing a match and deserializing the result reproduces it. -/
theorem match_from_dict_to_dict (m : Match) : Match.from_dict m.to_dict = .ok m := by
  simp [Match.from_dict, Match.to_dict, getField, getDefault, dictGet?, bind, Except.bind,
    pure, Except.pure]

/-- Shape of any normally returning `record_result` call: identifiers
kept, status "completed", both scores stored and non-None (a None score
would have made the `>` comparison raise), winner one of the two team
identifiers or the sentinel. -/
theorem record_result_ok_shape (m m' : Match) (s1 s2 : Value)
    (h : m.record_result s1 s2 = .ok m') :
    m'.match_id = m.match_id ∧ m'.tournament_id = m.tournament_id ∧
    m'.team1_id = m.team1_id ∧ m'.team2_id = m.team2_id ∧
    m'.status = .vStr "completed" ∧
    m'.team1_score = s1 ∧ m'.team2_score = s2 ∧
    m'.team1_score ≠ .vNone ∧ m'.team2_score ≠ .vNone ∧
    (m'.winner_id = m.team1_id ∨ m'.winner_id = m.team2_id ∨ m'.winner_id = .vStr "draw") := by
  cases s1 <;> cases s2 <;>
    simp only [Match.record_result, pyGt, bind, Except.bind, pure, Except.pure] at h
  all_goals
    first
      | exact Except.noConfusion h
      | (split at h
         · cases h
           simp
         · split at h
           · cases h
             simp
           · cases h
             simp)

/-- Every reachable match has string team identifiers and satisfies the
status invariant. -/
theorem reachable_match_invariant (m : Match) (hm : ReachableMatch m) :
    MatchIdsStr m ∧ StatusInvariant m := by
  induction hm with
  | init fresh_id tournament_id t1 t2 =>
      refine ⟨⟨⟨t1, rfl⟩, ⟨t2, rfl⟩⟩, ?_⟩
      simp [Match.init, StatusInvariant]
  | sched m d v hm ih =>
      obtain ⟨⟨⟨a, ha⟩, ⟨b, hb⟩⟩, hst⟩ := ih
      exact ⟨⟨⟨a, ha⟩, ⟨b, hb⟩⟩, hst⟩
  | record m m' s1 s2 hm h ih =>
      obtain ⟨⟨⟨a, ha⟩, ⟨b, hb⟩⟩, _⟩ := ih
      obtain ⟨_, _, h1, h2, h3, _, _, h6, h7, h8⟩ := record_result_ok_shape m m' s1 s2 h
      refine ⟨⟨⟨a, h1 ▸ ha⟩, ⟨b, h2 ▸ hb⟩⟩, ?_⟩
      unfold StatusInvariant
      constructor
      · intro _
        refine ⟨h6, h7, ?_⟩
        rcases h8 with hw | hw | hw <;> rw [hw]
        · rw [ha]
          simp
        · rw [hb]
          simp
        · simp
      · intro _
        exact h3
  | roundtrip m m' hm h ih =>
      rw [match_from_dict_to_dict] at h
      cases h
      exact ih

/-- C5: for every match reachable from construction by scheduling,
result recording and serialization round-trips, status is "completed"
exactly when team1_score, team2_score and winner_id are all set
(non-None). -/
theorem C5_completed_iff (m : Match) (hm : ReachableMatch m) :
    m.status = Value.vStr "completed" ↔
      (m.team1_score ≠ Value.vNone ∧ m.team2_score ≠ Value.vNone ∧
       m.winner_id ≠ Value.vNone) :=
  (reachable_match_invariant m hm).2

/-- C5 witness: the invariant for a freshly recorded 3-1 result. -/
theorem C5_completed_iff_witness :
    ({ Match.init "m1" (.vStr "T") (.vStr "a") (.vStr "b") with
       team1_score := Value.vInt 3, team2_score := Value.vInt 1,
       status := Value.vStr "completed", winner_id := Value.vStr "a" }.status
        = Value.vStr "completed") ↔
      ({ Match.init "m1" (.vStr "T") (.vStr "a") (.vStr "b") with
         team1_score := Value.vInt 3, team2_score := Value.vInt 1,
         status := Value.vStr "completed", winner_id := Value.vStr "a" }.team1_score
          ≠ Value.vNone ∧
       { Match.init "m1" (.vStr "T") (.vStr "a") (.vStr "b") with
         team1_score := Value.vInt 3, team2_score := Value.vInt 1,
         status := Value.vStr "completed", winner_id := Value.vStr "a" }.team2_score
          ≠ Value.vNone ∧
       { Match.init "m1" (.vStr "T") (.vStr "a") (.vStr "b") with
         team1_score := Value.vInt 3, team2_score := Value.vInt 1,
         status := Value.vStr "completed", winner_id := Value.vStr "a" }.winner_id
          ≠ Value.vNone) :=
  C5_completed_iff _
    (ReachableMatch.record (Match.init "m1" (.vStr "T") (.vStr "a") (.vStr "b")) _
      (.vInt 3) (.vInt 1) (ReachableMatch.init "m1" (.vStr "T") "a" "b")
      (by simp [Match.record_result, Match.init, pyGt, bind, Except.bind, pure, Except.pure]))

/-- C8: `get_result` is a pure function of the match: it returns the
fixed "Match not completed" message whenever status is not "completed";
when completed it returns the formatted draw string with both scores if
winner_id is the sentinel, and otherwise "Winner: " followed by the
winner identifier; in particular `record_result(2, 2)` leads to
"Draw 2-2" and `record_result(3, 1)` to a string naming team1_id. -/
theorem C8_get_result :
    (∀ m : Match, m.status ≠ Value.vStr "completed" →
        m.get_result = "Match not completed") ∧
    (∀ m : Match, m.status = Value.vStr "completed" → m.winner_id = Value.vStr "draw" →
        m.get_result = "Draw " ++ pyStr m.team1_score ++ "-" ++ pyStr m.team2_score) ∧
    (∀ m : Match, m.status = Value.vStr "completed" → m.winner_id ≠ Value.vStr "draw" →
        m.get_result = "Winner: " ++ pyStr m.winner_id) ∧
    (∀ m m' : Match, m.record_result (.vInt 2) (.vInt 2) = .ok m' →
        m'.get_result = "Draw 2-2") ∧
    (∀ (m m' : Match) (w : String), m.team1_id = Value.vStr w → w ≠ "draw" →
        m.record_result (.vInt 3) (.vInt 1) = .ok m' →
        m'.get_result = "Winner: " ++ w) := by
  refine ⟨?_, ?_, ?_, ?_, ?_⟩
  · intro m hs
    simp [Match.get_result, hs]
  · intro m hs hw
    simp [Match.get_result, hs, hw]
  · intro m hs hw
    simp [Match.get_result, hs, hw]
  · intro m m' h
    simp only [Match.record_result, pyGt, bind, Except.bind, pure, Except.pure] at h
    norm_num at h
    cases h
    simp [Match.get_result, pyStr]
    rfl
  · intro m m' w hw hdraw h
    simp only [Match.record_result, pyGt, bind, Except.bind, pure, Except.pure] at h
    norm_num at h
    cases h
    simp [Match.get_result, pyStr, hw, hdraw]

/-- C8 witness: concrete draw and decisive results on a fresh match. -/
theorem C8_get_result_witness :
    ({ Match.init "m1" (.vStr "T") (.vStr "a") (.vStr "b") with
       team1_score := Value.vInt 2, team2_score := Value.vInt 2,
       status := Value.vStr "completed",
       winner_id := Value.vStr "draw" } : Match).get_result = "Draw 2-2" ∧
    ({ Match.init "m1" (.vStr "T") (.vStr "a") (.vStr "b") with
       team1_score := Value.vInt 3, team2_score := Value.vInt 1,
       status := Value.vStr "completed",
       winner_id := Value.vStr "a" } : Match).get_result = "Winner: " ++ "a" :=
  ⟨C8_get_result.2.2.2.1 (Match.init "m1" (.vStr "T") (.vStr "a") (.vStr "b")) _
      (by simp [Match.record_result, Match.init, pyGt, bind, Except.bind, pure, Except.pure]),
   C8_get_result.2.2.2.2 (Match.init "m1" (.vStr "T") (.vStr "a") (.vStr "b")) _ "a" rfl
      (by simp)
      (by simp [Match.record_result, Match.init, pyGt, bind, Except.bind, pure, Except.pure])⟩

/-- C9: `reset_stats` zeroes the seven statistics fields and leaves the
identity fields, the registration date and the player list unchanged. -/
theorem C9_reset_stats (t : Team) :
    t.reset_stats.matches_played = .vInt 0 ∧ t.reset_stats.wins = .vInt 0 ∧
    t.reset_stats.draws = .vInt 0 ∧ t.reset_stats.losses = .vInt 0 ∧
    t.reset_stats.goals_for = .vInt 0 ∧ t.reset_stats.goals_against = .vInt 0 ∧
    t.reset_stats.points = .vInt 0 ∧
    t.reset_stats.team_id = t.team_id ∧ t.reset_stats.name = t.name ∧
    t.reset_stats.coach = t.coach ∧ t.reset_stats.contact = t.contact ∧
    t.reset_stats.registration_date = t.registration_date ∧
    t.reset_stats.players = t.players :=
  ⟨rfl, rfl, rfl, rfl, rfl, rfl, rfl, rfl, rfl, rfl, rfl, rfl, rfl⟩

/-- `Player.from_dict` either fails with `missingField` naming an absent
required key, or, when every required key is present, succeeds. -/
theorem player_from_dict_characterization (d : Dict) :
    (∃ k, k ∈ playerRequiredKeys ∧ dictGet? d k = none ∧
        Player.from_dict d = .error (.missingField k)) ∨
    ((∀ k ∈ playerRequiredKeys, dictGet? d k ≠ none) ∧
     ∃ p, Player.from_dict d = .ok p) := by
  cases h1 : dictGet? d "name"
  · exact Or.inl ⟨"name", by simp [playerRequiredKeys], h1,
      by simp [Player.from_dict, getField, h1, bind, Except.bind]⟩
  · cases h2 : dictGet? d "age"
    · exact Or.inl ⟨"age", by simp [playerRequiredKeys], h2,
        by simp [Player.from_dict, getField, h1, h2, bind, Except.bind]⟩
    · cases h3 : dictGet? d "position"
      · exact Or.inl ⟨"position", by simp [playerRequiredKeys], h3,
          by simp [Player.from_dict, getField, h1, h2, h3, bind, Except.bind]⟩
      · cases h4 : dictGet? d "jersey_number"
        · exact Or.inl ⟨"jersey_number", by simp [playerRequiredKeys], h4,
            by simp [Player.from_dict, getField, h1, h2, h3, h4, bind, Except.bind]⟩
        · cases h5 : dictGet? d "contact"
          · exact Or.inl ⟨"contact", by simp [playerRequiredKeys], h5,
              by simp [Player.from_dict, getField, h1, h2, h3, h4, h5, bind, Except.bind]⟩
          · cases h6 : dictGet? d "player_id"
            · exact Or.inl ⟨"player_id", by simp [playerRequiredKeys], h6,
                by simp [Player.from_dict, getField, h1, h2, h3, h4, h5, h6, bind, Except.bind]⟩
            · refine Or.inr ⟨?_, ?_⟩
              · intro k hk
                simp only [playerRequiredKeys, List.mem_cons, List.not_mem_nil, or_false] at hk
                rcases hk with rfl | rfl | rfl | rfl | rfl | rfl <;> simp_all
              · next v1 v2 v3 v4 v5 v6 =>
                exact ⟨{ player_id := v6, name := v1, age := v2, position := v3,
                         jersey_number := v4, contact := v5 },
                  by simp [Player.from_dict, getField, h1, h2, h3, h4, h5, h6, bind,
                    Except.bind, pure, Except.pure]⟩

/-- `Match.from_dict` either fails with `missingField` naming an absent
required key, or, when every required key is present, succeeds. -/
theorem match_from_dict_characterization (d : Dict) :
    (∃ k, k ∈ matchRequiredKeys ∧ dictGet? d k = none ∧
        Match.from_dict d = .error (.missingField k)) ∨
    ((∀ k ∈ matchRequiredKeys, dictGet? d k ≠ none) ∧
     ∃ mt, Match.from_dict d = .ok mt) := by
  cases h1 : dictGet? d "tournament_id"
  · exact Or.inl ⟨"tournament_id", by simp [matchRequiredKeys], h1,
      by simp [Match.from_dict, getField, h1, bind, Except.bind]⟩
  · cases h2 : dictGet? d "team1_id"
    · exact Or.inl ⟨"team1_id", by simp [matchRequiredKeys], h2,
        by simp [Match.from_dict, getField, h1, h2, bind, Except.bind]⟩
    · cases h3 : dictGet? d "team2_id"
      · exact Or.inl ⟨"team2_id", by simp [matchRequiredKeys], h3,
          by simp [Match.from_dict, getField, h1, h2, h3, bind, Except.bind]⟩
      · cases h4 : dictGet? d "match_id"
        · exact Or.inl ⟨"match_id", by simp [matchRequiredKeys], h4,
            by simp [Match.from_dict, getField, h1, h2, h3, h4, bind, Except.bind]⟩
        · refine Or.inr ⟨?_, ?_⟩
          · intro k hk
            simp only [matchRequiredKeys, List.mem_cons, List.not_mem_nil, or_false] at hk
            rcases hk with rfl | rfl | rfl | rfl <;> simp_all
          · next v1 v2 v3 v4 =>
            exact ⟨{ match_id := v4, tournament_id := v1, team1_id := v2, team2_id := v3,
                     match_date := getDefault d "match_date" .vNone,
                     venue := getDefault d "venue" .vNone,
                     team1_score := getDefault d "team1_score" .vNone,
                     team2_score := getDefault d "team2_score" .vNone,
                     status := getDefault d "status" (.vStr "scheduled"),
                     winner_id := getDefault d "winner_id" .vNone },
              by simp [Match.from_dict, getField, h1, h2, h3, h4, bind,
                Except.bind, pure, Except.pure]⟩

/-- When some required team key is absent, `Team.from_dict` fails with
`missingField` naming an absent required key (the nested players entry
is never reached). -/
theorem Team.from_dict_missing (d : Dict) (now : String)
    (h : ∃ k, k ∈ teamRequiredKeys ∧ dictGet? d k = none) :
    ∃ k, k ∈ teamRequiredKeys ∧ dictGet? d k = none ∧
      Team.from_dict d now = .error (.missingField k) := by
  cases h1 : dictGet? d "name"
  · exact ⟨"name", by simp [teamRequiredKeys], h1,
      by simp [Team.from_dict, getField, h1, bind, Except.bind]⟩
  · cases h2 : dictGet? d "coach"
    · exact ⟨"coach", by simp [teamRequiredKeys], h2,
        by simp [Team.from_dict, getField, h1, h2, bind, Except.bind]⟩
    · cases h3 : dictGet? d "contact"
      · exact ⟨"contact", by simp [teamRequiredKeys], h3,
          by simp [Team.from_dict, getField, h1, h2, h3, bind, Except.bind]⟩
      · cases h4 : dictGet? d "team_id"
        · exact ⟨"team_id", by simp [teamRequiredKeys], h4,
            by simp [Team.from_dict, getField, h1, h2, h3, h4, bind, Except.bind]⟩
        · obtain ⟨k, hk, hnone⟩ := h
          simp only [teamRequiredKeys, List.mem_cons, List.not_mem_nil, or_false] at hk
          rcases hk with rfl | rfl | rfl | rfl <;> simp_all

/-- With the four required keys present, `Team.from_dict` is the nested
players parse followed by the team construction. -/
theorem team_from_dict_required_bind (d : Dict) (now : String) (v1 v2 v3 v4 : Value)
    (h1 : dictGet? d "name" = some v1) (h2 : dictGet? d "coach" = some v2)
    (h3 : dictGet? d "contact" = some v3) (h4 : dictGet? d "team_id" = some v4) :
    Team.from_dict d now =
      (parsePlayers (getDefault d "players" (.vList []))).bind fun ps =>
        .ok { team_id := v4, name := v1, coach := v2, contact := v3, players := ps,
              registration_date := getDefault d "registration_date" (.vStr now),
              matches_played := getDefault d "matches_played" (.vInt 0),
              wins := getDefault d "wins" (.vInt 0),
              draws := getDefault d "draws" (.vInt 0),
              losses := getDefault d "losses" (.vInt 0),
              goals_for := getDefault d "goals_for" (.vInt 0),
              goals_against := getDefault d "goals_against" (.vInt 0),
              points := getDefault d "points" (.vInt 0) } := by
  simp only [Team.from_dict, getField, h1, h2, h3, h4, bind, Except.bind, pure, Except.pure]

/-- `parsePlayers` on an arbitrary value: success, a `TypeError` (not a
list, or a non-dictionary element), or the `missingField` failure of
the first nested player dictionary that lacks a required player key. -/
theorem parsePlayers_characterization (v : Value) :
    (∃ ps, parsePlayers v = .ok ps) ∨
    parsePlayers v = .error .typeError ∨
    (∃ l pd k, v = .vList l ∧ Value.vDict pd ∈ l ∧ k ∈ playerRequiredKeys ∧
       dictGet? pd k = none ∧ parsePlayers v = .error (.missingField k)) := by
  cases v with
  | vNone => exact Or.inr (Or.inl rfl)
  | vInt n => exact Or.inr (Or.inl rfl)
  | vStr t => exact Or.inr (Or.inl rfl)
  | vDict dd => exact Or.inr (Or.inl rfl)
  | vList l =>
    induction l with
    | nil => exact Or.inl ⟨[], rfl⟩
    | cons x rest ih =>
      have hcons : parsePlayers (Value.vList (x :: rest)) =
          (parsePlayerItem x).bind fun p =>
            (parsePlayers (Value.vList rest)).bind fun ps => Except.ok (p :: ps) := by
        show (x :: rest).mapM parsePlayerItem = _
        rw [List.mapM_cons]
        rfl
      cases x with
      | vNone => exact Or.inr (Or.inl (by rw [hcons]; rfl))
      | vInt n => exact Or.inr (Or.inl (by rw [hcons]; rfl))
      | vStr t => exact Or.inr (Or.inl (by rw [hcons]; rfl))
      | vList l2 => exact Or.inr (Or.inl (by rw [hcons]; rfl))
      | vDict pd =>
        rcases player_from_dict_characterization pd with ⟨k, hk, hnone, herr⟩ | ⟨_, p, hp⟩
        · refine Or.inr (Or.inr ⟨Value.vDict pd :: rest, pd, k, rfl,
            List.mem_cons_self _ _, hk, hnone, ?_⟩)
          have hitem : parsePlayerItem (Value.vDict pd) = .error (.missingField k) := herr
          rw [hcons, hitem]
          rfl
        · have hitem : parsePlayerItem (Value.vDict pd) = .ok p := hp
          rcases ih with ⟨ps, hps⟩ | htype | ⟨l2, pd2, k, hveq, hmem, hk, hnone, herr⟩
          · exact Or.inl ⟨p :: ps, by rw [hcons, hitem, hps]; rfl⟩
          · exact Or.inr (Or.inl (by rw [hcons, hitem, htype]; rfl))
          · obtain rfl : rest = l2 := by injection hveq
            exact Or.inr (Or.inr ⟨Value.vDict pd :: rest, pd2, k, rfl,
              List.mem_cons_of_mem _ hmem, hk, hnone, by rw [hcons, hitem, herr]; rfl⟩)

/-- `Team.from_dict` on an arbitrary mapping: a missing required team
key fails with `missingField` naming one; with all four present the
call succeeds, or raises `TypeError` on an ill-shaped players entry, or
fails with `missingField` naming a required player key absent from one
of the nested player dictionaries. -/
theorem team_from_dict_characterization (d : Dict) (now : String) :
    (∃ k, k ∈ teamRequiredKeys ∧ dictGet? d k = none ∧
        Team.from_dict d now = .error (.missingField k)) ∨
    ((∀ k ∈ teamRequiredKeys, dictGet? d k ≠ none) ∧
      ((∃ t, Team.from_dict d now = .ok t) ∨
       Team.from_dict d now = .error .typeError ∨
       (∃ l pd k, dictGet? d "players" = some (.vList l) ∧ Value.vDict pd ∈ l ∧
          k ∈ playerRequiredKeys ∧ dictGet? pd k = none ∧
          Team.from_dict d now = .error (.missingField k)))) := by
  by_cases hmiss : ∃ k, k ∈ teamRequiredKeys ∧ dictGet? d k = none
  · exact Or.inl (Team.from_dict_missing d now hmiss)
  · push_neg at hmiss
    have hreq : ∀ k ∈ teamRequiredKeys, dictGet? d k ≠ none := fun k hk => hmiss k hk
    obtain ⟨v1, h1⟩ := Option.ne_none_iff_exists'.mp (hreq "name" (by simp [teamRequiredKeys]))
    obtain ⟨v2, h2⟩ := Option.ne_none_iff_exists'.mp (hreq "coach" (by simp [teamRequiredKeys]))
    obtain ⟨v3, h3⟩ := Option.ne_none_iff_exists'.mp (hreq "contact" (by simp [teamRequiredKeys]))
    obtain ⟨v4, h4⟩ := Option.ne_none_iff_exists'.mp (hreq "team_id" (by simp [teamRequiredKeys]))
    have hbind := team_from_dict_required_bind d now v1 v2 v3 v4 h1 h2 h3 h4
    refine Or.inr ⟨hreq, ?_⟩
    rcases parsePlayers_characterization (getDefault d "players" (.vList [])) with
        ⟨ps, hps⟩ | htype | ⟨l, pd, k, hveq, hmem, hk, hnone, herr⟩
    · exact Or.inl ⟨_, by rw [hbind, hps]; rfl⟩
    · exact Or.inr (Or.inl (by rw [hbind, htype]; rfl))
    · refine Or.inr (Or.inr ⟨l, pd, k, ?_, hmem, hk, hnone, by rw [hbind, herr]; rfl⟩)
      cases hp : dictGet? d "players" with
      | none =>
          exfalso
          rw [getDefault, hp] at hveq
          simp only [Option.getD_none] at hveq
          injection hveq with hl
          subst hl
          exact absurd hmem (List.not_mem_nil _)
      | some w =>
          rw [getDefault, hp] at hveq
          simp only [Option.getD_some] at hveq
          rw [hveq]

/-- C7 (amended): each deserializer fails with `MissingField` naming an
absent required key exactly when a required key of the mapping being
deserialized is missing — for Player: name, age, position,
jersey_number, contact, player_id; for Match: tournament_id, team1_id,
team2_id, match_id; for Team the required keys are name, coach,
contact, team_id, but since a present players entry is itself a list of
Player deserializations, a call with all four team keys present can
still fail with `MissingField` naming a required player key absent from
a nested player dictionary (or with a `TypeError` on an ill-shaped
players value); the absence of a non-required key alone never causes
failure. -/
theorem C7_missing_field :
    (∀ d : Dict,
      (∃ k, k ∈ playerRequiredKeys ∧ dictGet? d k = none ∧
          Player.from_dict d = .error (.missingField k)) ∨
      ((∀ k ∈ playerRequiredKeys, dictGet? d k ≠ none) ∧
       ∃ p, Player.from_dict d = .ok p)) ∧
    (∀ (d : Dict) (now : String),
      (∃ k, k ∈ teamRequiredKeys ∧ dictGet? d k = none ∧
          Team.from_dict d now = .error (.missingField k)) ∨
      ((∀ k ∈ teamRequiredKeys, dictGet? d k ≠ none) ∧
        ((∃ t, Team.from_dict d now = .ok t) ∨
         Team.from_dict d now = .error .typeError ∨
         (∃ l pd k, dictGet? d "players" = some (.vList l) ∧ Value.vDict pd ∈ l ∧
            k ∈ playerRequiredKeys ∧ dictGet? pd k = none ∧
            Team.from_dict d now = .error (.missingField k))))) ∧
    (∀ d : Dict,
      (∃ k, k ∈ matchRequiredKeys ∧ dictGet? d k = none ∧
          Match.from_dict d = .error (.missingField k)) ∨
      ((∀ k ∈ matchRequiredKeys, dictGet? d k ≠ none) ∧
       ∃ mt, Match.from_dict d = .ok mt)) :=
  ⟨player_from_dict_characterization, team_from_dict_characterization,
   match_from_dict_characterization⟩

/-- C7 counterexample: a mapping carrying all four required team keys
whose players entry holds one empty player dictionary; `Team.from_dict`
fails with `MissingField "name"` although no required team key is
missing, refuting the original biconditional. -/
theorem C7_missing_field_counterexample :
    dictGet? [("name", Value.vStr "A"), ("coach", Value.vStr "B"),
              ("contact", Value.vStr "C"), ("team_id", Value.vStr "T"),
              ("players", Value.vList [Value.vDict []])] "name" = some (Value.vStr "A") ∧
    dictGet? [("name", Value.vStr "A"), ("coach", Value.vStr "B"),
              ("contact", Value.vStr "C"), ("team_id", Value.vStr "T"),
              ("players", Value.vList [Value.vDict []])] "coach" = some (Value.vStr "B") ∧
    dictGet? [("name", Value.vStr "A"), ("coach", Value.vStr "B"),
              ("contact", Value.vStr "C"), ("team_id", Value.vStr "T"),
              ("players", Value.vList [Value.vDict []])] "contact" = some (Value.vStr "C") ∧
    dictGet? [("name", Value.vStr "A"), ("coach", Value.vStr "B"),
              ("contact", Value.vStr "C"), ("team_id", Value.vStr "T"),
              ("players", Value.vList [Value.vDict []])] "team_id" = some (Value.vStr "T") ∧
    Team.from_dict [("name", Value.vStr "A"), ("coach", Value.vStr "B"),
              ("contact", Value.vStr "C"), ("team_id", Value.vStr "T"),
              ("players", Value.vList [Value.vDict []])] "2025-01-01" =
      .error (.missingField "name") :=
  ⟨rfl, rfl, rfl, rfl, rfl⟩

/-- C7 witness: the amended characterization applied to a player mapping
missing "name" and a team mapping missing "team_id". -/
theorem C7_missing_field_witness :
    ((∃ k, k ∈ playerRequiredKeys ∧ dictGet? [("age", Value.vInt 5)] k = none ∧
        Player.from_dict [("age", Value.vInt 5)] = .error (.missingField k)) ∨
     ((∀ k ∈ playerRequiredKeys, dictGet? [("age", Value.vInt 5)] k ≠ none) ∧
      ∃ p, Player.from_dict [("age", Value.vInt 5)] = .ok p)) ∧
    ((∃ k, k ∈ teamRequiredKeys ∧
        dictGet? [("name", Value.vStr "A"), ("coach", Value.vStr "B"),
                  ("contact", Value.vStr "C")] k = none ∧
        Team.from_dict [("name", Value.vStr "A"), ("coach", Value.vStr "B"),
                  ("contact", Value.vStr "C")] "2025-01-01" = .error (.missingField k)) ∨
     ((∀ k ∈ teamRequiredKeys,
        dictGet? [("name", Value.vStr "A"), ("coach", Value.vStr "B"),
                  ("contact", Value.vStr "C")] k ≠ none) ∧
       ((∃ t, Team.from_dict [("name", Value.vStr "A"), ("coach", Value.vStr "B"),
                  ("contact", Value.vStr "C")] "2025-01-01" = .ok t) ∨
        Team.from_dict [("name", Value.vStr "A"), ("coach", Value.vStr "B"),
                  ("contact", Value.vStr "C")] "2025-01-01" = .error .typeError ∨
        (∃ l pd k, dictGet? [("name", Value.vStr "A"), ("coach", Value.vStr "B"),
                  ("contact", Value.vStr "C")] "players" = some (.vList l) ∧
           Value.vDict pd ∈ l ∧ k ∈ playerRequiredKeys ∧ dictGet? pd k = none ∧
           Team.from_dict [("name", Value.vStr "A"), ("coach", Value.vStr "B"),
                  ("contact", Value.vStr "C")] "2025-01-01" =
             .error (.missingField k))))) :=
  ⟨C7_missing_field.1 [("age", Value.vInt 5)],
   C7_missing_field.2.1 [("name", Value.vStr "A"), ("coach", Value.vStr "B"),
      ("contact", Value.vStr "C")] "2025-01-01"⟩

/-- C10: a mapping with the required team keys but no "players" key
deserializes to a team whose player list is empty. -/
theorem C10_team_from_dict_no_players (d : Dict) (now : String)
    (hreq : ∀ k ∈ teamRequiredKeys, dictGet? d k ≠ none)
    (hnp : dictGet? d "players" = none) :
    ∃ t : Team, Team.from_dict d now = .ok t ∧ t.players = [] := by
  obtain ⟨v1, h1⟩ := Option.ne_none_iff_exists'.mp (hreq "name" (by simp [teamRequiredKeys]))
  obtain ⟨v2, h2⟩ := Option.ne_none_iff_exists'.mp (hreq "coach" (by simp [teamRequiredKeys]))
  obtain ⟨v3, h3⟩ := Option.ne_none_iff_exists'.mp (hreq "contact" (by simp [teamRequiredKeys]))
  obtain ⟨v4, h4⟩ := Option.ne_none_iff_exists'.mp (hreq "team_id" (by simp [teamRequiredKeys]))
  exact ⟨{ team_id := v4, name := v1, coach := v2, contact := v3, players := [],
           registration_date := getDefault d "registration_date" (.vStr now),
           matches_played := getDefault d "matches_played" (.vInt 0),
           wins := getDefault d "wins" (.vInt 0),
           draws := getDefault d "draws" (.vInt 0),
           losses := getDefault d "losses" (.vInt 0),
           goals_for := getDefault d "goals_for" (.vInt 0),
           goals_against := getDefault d "goals_against" (.vInt 0),
           points := getDefault d "points" (.vInt 0) },
    by simp [Team.from_dict, getField, getDefault, h1, h2, h3, h4, hnp, parsePlayers,
      bind, Except.bind, pure, Except.pure]
       rfl, rfl⟩

/-- C10 witness: a concrete mapping with only the four required keys. -/
theorem C10_team_from_dict_no_players_witness :
    ∃ t : Team,
      Team.from_dict [("name", Value.vStr "A"), ("coach", Value.vStr "B"),
        ("contact", Value.vStr "C"), ("team_id", Value.vStr "T")] "2025-01-01" = .ok t ∧
      t.players = [] :=
  C10_team_from_dict_no_players _ "2025-01-01"
    (by intro k hk; simp only [teamRequiredKeys, List.mem_cons, List.not_mem_nil,
          or_false] at hk; rcases hk with rfl | rfl | rfl | rfl <;> simp [dictGet?])
    (by simp [dictGet?])

end Tournament
